import Mathlib

/-
  Verification of the depth-determination subsystem of a seismological
  processing toolkit:

  * `DepthPhaseAnalyzer` (src/libs/seiscomp/seismology/autoloc/depthphases.cpp):
    depth-phase catalog, travel-time differences, and the grid-search
    depth inversion.
  * `RegionDepthLookup` (src/libs/seiscomp/seismology/autoloc/regiondepth.cpp):
    region-based depth constraints over a set of named polygons.

  Embedding conventions:
  * C++ `double` values are modelled as exact rationals `ℚ`.
  * The travel-time oracle and the geographic feature store are external
    collaborators; they are modelled as function-valued records.  A thrown
    oracle exception is modelled as `Option.none`.
  * `calculateMisfit` in the source returns `sqrt(sumSq/sumW)`, with
    `DBL_MAX` when no observation contributes and IEEE `NaN` when the
    radicand is negative.  Square root is strictly monotone on the
    non-negative reals, so the grid search compares radicands instead;
    the sentinel values are modelled by the dedicated type `MisfitVal`
    whose order `ltM` mirrors the IEEE comparisons (`x < DBL_MAX` true
    for finite x, all comparisons with `NaN` false).
-/

attribute [local semireducible] Rat.add Rat.sub Rat.mul Rat.inv Rat.ofScientific

/-- Outcome of `calculateMisfit`: a finite squared misfit, the
`DBL_MAX` sentinel returned when no valid observation contributes,
or the IEEE `NaN` produced by `sqrt` of a negative radicand. -/
inductive MisfitVal where
  | fin (q : ℚ)
  | inf
  | nan
deriving DecidableEq

/-- The strict comparison `misfit < bestMisfit` used by the grid search,
on `MisfitVal`: finite values compare by their radicands (square root is
monotone), every finite value is below `inf` (`DBL_MAX`), and any
comparison involving `nan` is false, as in IEEE arithmetic. -/
def ltM : MisfitVal → MisfitVal → Bool
  | .fin a, .fin b => a < b
  | .fin _, .inf => true
  | .fin _, .nan => false
  | .inf, _ => false
  | .nan, _ => false

/-- Configuration for depth phase analysis (depthphases.h). -/
structure DepthPhaseConfig where
  phases : List String := ["pP", "sP", "pwP"]
  minDepth : ℚ := 15
  maxDepth : ℚ := 700
  minDistance : ℚ := 30
  maxDistance : ℚ := 90
  maxResidual : ℚ := 3
  minPhaseCount : ℤ := 3
  weight : ℚ := (3 : ℚ) / 2
  searchWindowBefore : ℚ := 5
  searchWindowAfter : ℚ := 10
deriving DecidableEq

/-- A single depth phase observation (depthphases.h). -/
structure DepthPhaseObservation where
  phase : String
  referencePhase : String
  stationCode : String
  networkCode : String
  observedTime : ℚ
  theoreticalTime : ℚ
  residual : ℚ
  timeDifferenceObs : ℚ
  timeDifferenceTheo : ℚ
  distance : ℚ
  weight : ℚ
  isValid : Bool
deriving DecidableEq

/-- A single entry of a travel-time list: phase name and arrival time. -/
structure TravelTime where
  phase : String
  time : ℚ
deriving DecidableEq

/-- External travel-time oracle.  `compute1` models the single-phase
`compute` call and returns the arrival time; `none` models a thrown
exception.  `computeAll` models the all-phases `compute` call; `none`
models a null result list. -/
structure TravelTimeTableInterface where
  compute1 : String → ℚ → ℚ → ℚ → ℚ → ℚ → ℚ → Option ℚ
  computeAll : ℚ → ℚ → ℚ → ℚ → ℚ → ℚ → Option (List TravelTime)

/-- Analyzer state: configuration and the optional travel-time oracle. -/
structure DepthPhaseAnalyzer where
  _config : DepthPhaseConfig
  _ttt : Option TravelTimeTableInterface

/-- The static depth-phase catalog mapping each depth phase to its
reference phase (depthphases.cpp, `depthPhaseTable`). -/
def depthPhaseTable : List (String × String) :=
  [("pP", "P"), ("sP", "P"), ("pwP", "P"),
   ("pS", "S"), ("sS", "S"), ("pPKP", "PKP"), ("sPKP", "PKP")]

/-- `DepthPhaseAnalyzer::isDepthPhase`. -/
def isDepthPhase (phase : String) : Bool :=
  depthPhaseTable.any (fun info => phase = info.1)

/-- `DepthPhaseAnalyzer::getReferencePhase`. -/
def getReferencePhase (depthPhase : String) : String :=
  match depthPhaseTable.find? (fun info => depthPhase = info.1) with
  | some info => info.2
  | none => "P"

/-- `DepthPhaseAnalyzer::setConfig`. -/
def DepthPhaseAnalyzer.setConfig (A : DepthPhaseAnalyzer)
    (config : DepthPhaseConfig) : DepthPhaseAnalyzer :=
  { A with _config := config }

/-- `DepthPhaseAnalyzer::config`. -/
def DepthPhaseAnalyzer.config (A : DepthPhaseAnalyzer) : DepthPhaseConfig :=
  A._config

/-- The pointer overload of `DepthPhaseAnalyzer::setTravelTimeTable`:
stores the argument unconditionally, then reports whether it is non-null. -/
def DepthPhaseAnalyzer.setTravelTimeTable (A : DepthPhaseAnalyzer)
    (ttt : Option TravelTimeTableInterface) : DepthPhaseAnalyzer × Bool :=
  let A2 : DepthPhaseAnalyzer := { A with _ttt := ttt }
  (A2, A2._ttt.isSome)

/-- `DepthPhaseAnalyzer::computeDepthPhaseTimes`: forward the all-phases
oracle call, then keep the entries whose phase is among the requested
phases (or the configured phases when the request is empty). -/
def DepthPhaseAnalyzer.computeDepthPhaseTimes (A : DepthPhaseAnalyzer)
    (lat lon depth stationLat stationLon stationElev : ℚ)
    (phases : List String) : List TravelTime :=
  match A._ttt with
  | none => []
  | some ttt =>
    match ttt.computeAll lat lon depth stationLat stationLon stationElev with
    | none => []
    | some ttList =>
      let targetPhases := if phases.isEmpty then A._config.phases else phases
      ttList.filter (fun tt => targetPhases.any (fun phase => tt.phase = phase))

/-- `DepthPhaseAnalyzer::computeDepthPhaseTimeDifference`: depth-phase
arrival minus reference-phase arrival when both are positive, `-1`
otherwise (no oracle, a thrown exception, or a non-positive time). -/
def DepthPhaseAnalyzer.computeDepthPhaseTimeDifference (A : DepthPhaseAnalyzer)
    (depthPhase : String)
    (lat lon depth stationLat stationLon stationElev : ℚ) : ℚ :=
  match A._ttt with
  | none => -1
  | some ttt =>
    let refPhase := getReferencePhase depthPhase
    match ttt.compute1 depthPhase lat lon depth stationLat stationLon stationElev with
    | none => -1
    | some ttDepth =>
      match ttt.compute1 refPhase lat lon depth stationLat stationLon stationElev with
      | none => -1
      | some ttRef =>
        if 0 < ttDepth ∧ 0 < ttRef then ttDepth - ttRef else -1

/-- `DepthPhaseAnalyzer::calculateMisfit`: weight-normalised misfit of the
valid observations, using the pre-stored observed and theoretical time
differences.  The `lat`, `lon` and `depth` parameters are present in the
source signature but never read in the body. -/
def calculateMisfit (lat lon depth : ℚ)
    (observations : List DepthPhaseObservation) : MisfitVal :=
  let valid := observations.filter (fun obs => obs.isValid)
  let sumSquaredResiduals := (valid.map (fun obs =>
    obs.weight * ((obs.timeDifferenceObs - obs.timeDifferenceTheo) *
                  (obs.timeDifferenceObs - obs.timeDifferenceTheo)))).sum
  let sumWeights := (valid.map (fun obs => obs.weight)).sum
  if valid.length = 0 ∨ sumWeights = 0 then .inf
  else if sumSquaredResiduals / sumWeights < 0 then .nan
  else .fin (sumSquaredResiduals / sumWeights)

/-- The trial depths visited by the loop
`for (depth = minDepth; depth <= maxDepth; depth += step)`
in exact arithmetic: `minDepth + k·step` for `k = 0 … ⌊(maxDepth−minDepth)/step⌋`.
The loop is only ever entered with a positive step. -/
def gridPoints (minDepth maxDepth step : ℚ) : List ℚ :=
  if 0 < step ∧ minDepth ≤ maxDepth then
    (List.range ((Int.floor ((maxDepth - minDepth) / step)).toNat + 1)).map
      (fun (k : ℕ) => minDepth + (k : ℚ) * step)
  else []

/-- One iteration of the grid-search loop body: keep the trial depth when
its misfit strictly improves on the best so far. -/
def gridStep (lat lon : ℚ) (observations : List DepthPhaseObservation)
    (acc : ℚ × MisfitVal) (depth : ℚ) : ℚ × MisfitVal :=
  if ltM (calculateMisfit lat lon depth observations) acc.2 then
    (depth, calculateMisfit lat lon depth observations)
  else acc

/-- `DepthPhaseAnalyzer::gridSearchDepth`: scan the grid in ascending
order, starting from `bestDepth = -1` and `bestMisfit = DBL_MAX`. -/
def gridSearchDepth (lat lon : ℚ) (observations : List DepthPhaseObservation)
    (minDepth maxDepth step : ℚ) : ℚ :=
  ((gridPoints minDepth maxDepth step).foldl
    (gridStep lat lon observations) ((-1 : ℚ), MisfitVal.inf)).1

/-- `DepthPhaseAnalyzer::invertForDepth`: three-pass hierarchical grid
search (coarse 10 km, fine 1 km, very fine 0.5 km).  The `initialDepth`
parameter is present in the source signature but never read. -/
def DepthPhaseAnalyzer.invertForDepth (A : DepthPhaseAnalyzer)
    (lat lon : ℚ) (observations : List DepthPhaseObservation)
    (initialDepth : ℚ) : ℚ :=
  if observations.isEmpty then -1
  else match A._ttt with
  | none => -1
  | some _ =>
    let validCount := (observations.filter (fun obs => obs.isValid)).length
    if (validCount : ℤ) < A._config.minPhaseCount then -1
    else
      let bestDepth := gridSearchDepth lat lon observations
        A._config.minDepth A._config.maxDepth 10
      if bestDepth < 0 then -1
      else
        let minSearch := max A._config.minDepth (bestDepth - 20)
        let maxSearch := min A._config.maxDepth (bestDepth + 20)
        let bestDepth2 := gridSearchDepth lat lon observations minSearch maxSearch 1
        if bestDepth2 < 0 then -1
        else
          let minSearch2 := max A._config.minDepth (bestDepth2 - 5)
          let maxSearch2 := min A._config.maxDepth (bestDepth2 + 5)
          gridSearchDepth lat lon observations minSearch2 maxSearch2 ((1 : ℚ) / 2)

/-- External geographic feature (regiondepth.h uses `Geo::GeoFeature`):
a named polygon with a point-in-polygon test and string-keyed attributes.
The polygon test and the attribute map are delegated to the feature
store, an external collaborator. -/
structure GeoFeature where
  name : String
  contains : ℚ → ℚ → Bool
  attributes : List (String × String)

/-- Configuration for region-based depth constraints (regiondepth.h). -/
structure RegionDepthConfig where
  enabled : Bool := false
  regions : List String := []
  globalDefaultDepth : ℚ := 10
  globalMaxDepth : ℚ := 700
deriving DecidableEq

/-- Depth constraints for a location (regiondepth.h), with the field
defaults of the source struct. -/
structure RegionDepthConstraints where
  regionName : String := ""
  defaultDepth : ℚ := 10
  maxDepth : ℚ := 700
  hasDefaultDepth : Bool := false
  hasMaxDepth : Bool := false
  matched : Bool := false
deriving DecidableEq

/-- Lookup state: configuration, retained region references, and the
initialization flag (regiondepth.h private members). -/
structure RegionDepthLookup where
  _config : RegionDepthConfig
  _regions : List GeoFeature
  _initialized : Bool

/-- `RegionDepthLookup::setConfig`: replace the configuration, mark
uninitialized, drop the cached region references. -/
def RegionDepthLookup.setConfig (L : RegionDepthLookup)
    (config : RegionDepthConfig) : RegionDepthLookup :=
  { L with _config := config, _initialized := false, _regions := [] }

/-- `RegionDepthLookup::config`. -/
def RegionDepthLookup.config (L : RegionDepthLookup) : RegionDepthConfig :=
  L._config

/-- `RegionDepthLookup::isInitialized`. -/
def RegionDepthLookup.isInitialized (L : RegionDepthLookup) : Bool :=
  L._initialized

/-- `RegionDepthLookup::regionCount`. -/
def RegionDepthLookup.regionCount (L : RegionDepthLookup) : ℕ :=
  L._regions.length

/-- `RegionDepthLookup::regionNames`. -/
def RegionDepthLookup.regionNames (L : RegionDepthLookup) : List String :=
  L._regions.map (fun region => region.name)

/-- `RegionDepthLookup::init`, parameterized by the external feature
store (`Geo::GeoFeatureSetSingleton` in the source): for each configured
region name in order, retain the first feature with that name; names not
found are skipped.  Returns the new state together with the returned
boolean. -/
def RegionDepthLookup.init (L : RegionDepthLookup)
    (features : List GeoFeature) : RegionDepthLookup × Bool :=
  if L._config.enabled = false then
    ({ L with _regions := [], _initialized := false }, false)
  else if L._config.regions.isEmpty then
    ({ L with _regions := [], _initialized := false }, false)
  else
    let regions := L._config.regions.filterMap (fun regionName =>
      features.find? (fun feature => feature.name = regionName))
    let initialized := !regions.isEmpty
    ({ L with _regions := regions, _initialized := initialized }, initialized)

/-- `RegionDepthLookup::parseDepthAttribute`, with the external numeric
parser `Core::fromString` passed in as `fromString` (its code is outside
this corpus; the claims hold for every parser): `none` when the
attribute is absent or fails to parse. -/
def parseDepthAttribute (fromString : String → Option ℚ)
    (feature : GeoFeature) (attrName : String) : Option ℚ :=
  match feature.attributes.lookup attrName with
  | none => none
  | some s => fromString s

/-- The body of the first-match branch of `getConstraints`: set the
region name and the matched flag, then overwrite `defaultDepth` and
`maxDepth` with successfully parsed attribute values. -/
def applyRegion (fromString : String → Option ℚ) (region : GeoFeature)
    (result : RegionDepthConstraints) : RegionDepthConstraints :=
  let result1 := { result with regionName := region.name, matched := true }
  let result2 := match parseDepthAttribute fromString region "defaultDepth" with
    | some depth => { result1 with defaultDepth := depth, hasDefaultDepth := true }
    | none => result1
  match parseDepthAttribute fromString region "maxDepth" with
  | some depth => { result2 with maxDepth := depth, hasMaxDepth := true }
  | none => result2

/-- The region loop of `getConstraints`: return on the first region
containing the location, otherwise fall through to the running result. -/
def getConstraintsLoop (fromString : String → Option ℚ) (lat lon : ℚ) :
    List GeoFeature → RegionDepthConstraints → RegionDepthConstraints
  | [], result => result
  | region :: rest, result =>
    if region.contains lat lon then applyRegion fromString region result
    else getConstraintsLoop fromString lat lon rest result

/-- `RegionDepthLookup::getConstraints`: start from the global defaults
and consult the retained regions in order; first match wins. -/
def RegionDepthLookup.getConstraints (L : RegionDepthLookup)
    (fromString : String → Option ℚ) (lat lon : ℚ) : RegionDepthConstraints :=
  let result : RegionDepthConstraints :=
    { defaultDepth := L._config.globalDefaultDepth,
      maxDepth := L._config.globalMaxDepth,
      matched := false }
  if L._config.enabled = false ∨ L._regions.isEmpty then result
  else getConstraintsLoop fromString lat lon L._regions result

/-- `RegionDepthLookup::getDefaultDepth`. -/
def RegionDepthLookup.getDefaultDepth (L : RegionDepthLookup)
    (fromString : String → Option ℚ) (lat lon : ℚ) : ℚ :=
  (L.getConstraints fromString lat lon).defaultDepth

/-- `RegionDepthLookup::getMaxDepth`. -/
def RegionDepthLookup.getMaxDepth (L : RegionDepthLookup)
    (fromString : String → Option ℚ) (lat lon : ℚ) : ℚ :=
  (L.getConstraints fromString lat lon).maxDepth

/-- Two observations related when they are equal, or agree on `isValid`
and `weight` while the weight is non-positive or the validity flag
false (the relation of the claimed noninterference property: all other
fields of such observations may differ freely). -/
def nonPositiveObsEquiv (a b : DepthPhaseObservation) : Prop :=
  a = b ∨ (a.isValid = b.isValid ∧ a.weight = b.weight ∧
           (a.weight ≤ 0 ∨ a.isValid = false))

/-- Two observations related when they are equal, or agree on `isValid`
and `weight` while the weight is zero or the validity flag false: such
observations contribute nothing to the misfit sums. -/
def ignoredObsEquiv (a b : DepthPhaseObservation) : Prop :=
  a = b ∨ (a.isValid = b.isValid ∧ a.weight = b.weight ∧
           (a.weight = 0 ∨ a.isValid = false))

/-- Fixture: an observation with the given time differences, weight and
validity flag; the remaining fields are fixed and play no role in the
inversion. -/
def mkObs (timeDifferenceObs timeDifferenceTheo weight : ℚ)
    (isValid : Bool) : DepthPhaseObservation :=
  { phase := "pP", referencePhase := "P", stationCode := "STA01",
    networkCode := "NN", observedTime := 0, theoreticalTime := 0,
    residual := timeDifferenceObs - timeDifferenceTheo,
    timeDifferenceObs := timeDifferenceObs,
    timeDifferenceTheo := timeDifferenceTheo,
    distance := 50, weight := weight, isValid := isValid }

/-- Fixture: an oracle whose single-phase call answers 10 s for `pP`
and 7 s for every other phase, and whose all-phases call answers an
empty list. -/
def oracleFix : TravelTimeTableInterface :=
  { compute1 := fun phase _ _ _ _ _ _ =>
      if phase = "pP" then some 10 else some 7
    computeAll := fun _ _ _ _ _ _ => some [] }

/-- Fixture analyzer for the negative-`minDepth` counterexample:
grid range [-5, 5], one observation required. -/
def analyzerNeg : DepthPhaseAnalyzer :=
  { _config := { minDepth := -5, maxDepth := 5, minPhaseCount := 1 }
    _ttt := some oracleFix }

/-- Fixture observations for the negative-`minDepth` counterexample. -/
def obsNeg : List DepthPhaseObservation := [mkObs 80 66 1 true]

/-- Fixture analyzer with grid range [0, 10] and three observations
required. -/
def analyzerSmall : DepthPhaseAnalyzer :=
  { _config := { minDepth := 0, maxDepth := 10, minPhaseCount := 3 }
    _ttt := some oracleFix }

/-- Fixture observations: three valid unit-weight observations. -/
def obsSmall : List DepthPhaseObservation :=
  [mkObs 80 66 1 true, mkObs 82 66 1 true, mkObs 78 66 1 true]

/-- Fixture analyzer for the S4 scenario: grid range [0, 100], three
observations required. -/
def analyzerS4 : DepthPhaseAnalyzer :=
  { _config := { minDepth := 0, maxDepth := 100, minPhaseCount := 3 }
    _ttt := some oracleFix }

/-- Fixture observations of the S4 scenario: observed pP-P differences
80, 82 and 78 s, all valid with weight 1; the stored theoretical
difference is the one computed at the initial depth of 33 km by an
oracle with pP-P = 2·depth, namely 66 s. -/
def obsS4 : List DepthPhaseObservation := obsSmall

/-- Fixture analyzer for the noninterference counterexample: grid range
[0, 10], two observations required. -/
def analyzerTwo : DepthPhaseAnalyzer :=
  { _config := { minDepth := 0, maxDepth := 10, minPhaseCount := 2 }
    _ttt := some oracleFix }

/-- Counterexample list 1: a weight-2 observation with zero residual and
a valid observation of weight -1 with zero residual. -/
def obsNegWeightA : List DepthPhaseObservation :=
  [mkObs 80 80 2 true, mkObs 70 70 (-1) true]

/-- Counterexample list 2: as `obsNegWeightA` but the negative-weight
observation's observed difference moved by 1 s. -/
def obsNegWeightB : List DepthPhaseObservation :=
  [mkObs 80 80 2 true, mkObs 71 70 (-1) true]

/-- Witness list 1 for the repaired noninterference property: one
unit-weight observation and one zero-weight valid observation. -/
def obsZeroWeightA : List DepthPhaseObservation :=
  [mkObs 80 80 1 true, mkObs 50 70 0 true]

/-- Witness list 2: as `obsZeroWeightA` with every field of the
zero-weight observation other than `weight` and `isValid` changed. -/
def obsZeroWeightB : List DepthPhaseObservation :=
  [mkObs 80 80 1 true,
   { phase := "sP", referencePhase := "S", stationCode := "XX",
     networkCode := "YY", observedTime := 9, theoreticalTime := 8,
     residual := 7, timeDifferenceObs := 99, timeDifferenceTheo := 12,
     distance := 60, weight := 0, isValid := true }]

/-- Fixture region "A": a box over latitudes [35, 40] and longitudes
[-100, -95], with a `maxDepth` attribute of 35 km. -/
def regionA : GeoFeature :=
  { name := "A"
    contains := fun lat lon =>
      (35 ≤ lat ∧ lat ≤ 40) ∧ (-100 ≤ lon ∧ lon ≤ -95)
    attributes := [("maxDepth", "35")] }

/-- Fixture region "B": a larger box over latitudes [30, 45] and
longitudes [-110, -90], with a `maxDepth` attribute of 700 km. -/
def regionB : GeoFeature :=
  { name := "B"
    contains := fun lat lon =>
      (30 ≤ lat ∧ lat ≤ 45) ∧ (-110 ≤ lon ∧ lon ≤ -90)
    attributes := [("maxDepth", "700")] }

/-- Fixture numeric parser for region attributes. -/
def fromStringFix (s : String) : Option ℚ :=
  if s = "35" then some 35
  else if s = "700" then some 700
  else none

/-- Fixture lookup with the overlapping regions "A" before "B" retained,
global defaults 15 / 700 km. -/
def lookupAB : RegionDepthLookup :=
  { _config := { enabled := true, regions := ["A", "B"],
                 globalDefaultDepth := 15, globalMaxDepth := 700 }
    _regions := [regionA, regionB]
    _initialized := true }

/-- Fixture uninitialized lookup configured with the single region
name "A". -/
def lookupPreInit : RegionDepthLookup :=
  { _config := { enabled := true, regions := ["A"],
                 globalDefaultDepth := 15, globalMaxDepth := 700 }
    _regions := []
    _initialized := false }

/-- Fixture analyzer with an oracle, for the time-difference witness. -/
def analyzerOracle : DepthPhaseAnalyzer :=
  { _config := {}, _ttt := some oracleFix }

/-- Every value `getReferencePhase` can return is one of the three
reference phase names of the catalog. -/
lemma getReferencePhase_mem (p : String) :
    getReferencePhase p = "P" ∨ getReferencePhase p = "S" ∨
    getReferencePhase p = "PKP" := by
  unfold getReferencePhase
  cases h : depthPhaseTable.find? (fun info => p = info.1) with
  | none => simp
  | some info =>
    have hmem := List.mem_of_find?_eq_some h
    simp only [depthPhaseTable, List.mem_cons, List.not_mem_nil, or_false] at hmem
    rcases hmem with rfl | rfl | rfl | rfl | rfl | rfl | rfl <;> simp

/-- Claim C8: the set of depth-phase names and the set of values
`getReferencePhase` can return are disjoint, and the concrete catalog
lookups of scenario S2 hold. -/
theorem depthPhase_reference_disjoint :
    (∀ p : String, isDepthPhase (getReferencePhase p) = false) ∧
    isDepthPhase "pP" = true ∧ isDepthPhase "P" = false ∧
    getReferencePhase "sPKP" = "PKP" ∧ getReferencePhase "unknown" = "P" := by
  refine ⟨fun p => ?_, by decide, by decide, by decide, by decide⟩
  rcases getReferencePhase_mem p with h | h | h <;> rw [h] <;> decide

/-- Claim C9: after `setConfig c`, `config()` is `c`, the lookup is
uninitialized, the cached regions are dropped, and the resulting state
is independent of the prior state. -/
theorem setConfig_resets (L : RegionDepthLookup) (c : RegionDepthConfig) :
    (L.setConfig c).config = c ∧
    (L.setConfig c).isInitialized = false ∧
    (L.setConfig c).regionCount = 0 ∧
    ∀ L2 : RegionDepthLookup, L.setConfig c = L2.setConfig c :=
  ⟨rfl, rfl, rfl, fun _ => rfl⟩

/-- Claim C10: the pointer overload of `setTravelTimeTable` called with
null returns false, discards any previously configured oracle, and every
subsequent compute operation returns its not-configured sentinel. -/
theorem setTravelTimeTable_null (A : DepthPhaseAnalyzer) :
    (A.setTravelTimeTable none).2 = false ∧
    (A.setTravelTimeTable none).1._ttt = none ∧
    (∀ lat lon depth stationLat stationLon stationElev : ℚ,
      ∀ phases : List String,
      (A.setTravelTimeTable none).1.computeDepthPhaseTimes
        lat lon depth stationLat stationLon stationElev phases = []) ∧
    (∀ dp : String, ∀ lat lon depth stationLat stationLon stationElev : ℚ,
      (A.setTravelTimeTable none).1.computeDepthPhaseTimeDifference
        dp lat lon depth stationLat stationLon stationElev = -1) ∧
    (∀ lat lon initialDepth : ℚ, ∀ obs : List DepthPhaseObservation,
      (A.setTravelTimeTable none).1.invertForDepth lat lon obs initialDepth = -1) := by
  refine ⟨rfl, rfl, fun _ _ _ _ _ _ _ => rfl, fun _ _ _ _ _ _ _ => rfl,
    fun lat lon initialDepth obs => ?_⟩
  unfold DepthPhaseAnalyzer.invertForDepth
  split
  · rfl
  · rfl

/-- Claim C7: `computeDepthPhaseTimeDifference` returns the depth-phase
arrival time minus the reference-phase arrival time when both
oracle-computed times are positive, and -1 otherwise, including when no
oracle is configured and when the oracle throws (modelled as `none`). -/
theorem computeDepthPhaseTimeDifference_spec (A : DepthPhaseAnalyzer)
    (dp : String) (lat lon depth stationLat stationLon stationElev : ℚ) :
    (∀ ttt, A._ttt = some ttt →
      ∀ tD, ttt.compute1 dp lat lon depth stationLat stationLon stationElev = some tD →
      ∀ tR, ttt.compute1 (getReferencePhase dp)
              lat lon depth stationLat stationLon stationElev = some tR →
      A.computeDepthPhaseTimeDifference dp lat lon depth stationLat stationLon stationElev =
        if 0 < tD ∧ 0 < tR then tD - tR else -1) ∧
    (A._ttt = none →
      A.computeDepthPhaseTimeDifference dp lat lon depth stationLat stationLon stationElev = -1) ∧
    (∀ ttt, A._ttt = some ttt →
      ttt.compute1 dp lat lon depth stationLat stationLon stationElev = none →
      A.computeDepthPhaseTimeDifference dp lat lon depth stationLat stationLon stationElev = -1) ∧
    (∀ ttt, A._ttt = some ttt →
      ttt.compute1 (getReferencePhase dp)
        lat lon depth stationLat stationLon stationElev = none →
      A.computeDepthPhaseTimeDifference dp lat lon depth stationLat stationLon stationElev = -1) := by
  refine ⟨?_, ?_, ?_, ?_⟩
  · intro ttt httt tD hD tR hR
    simp [DepthPhaseAnalyzer.computeDepthPhaseTimeDifference, httt, hD, hR]
  · intro httt
    simp [DepthPhaseAnalyzer.computeDepthPhaseTimeDifference, httt]
  · intro ttt httt hD
    simp [DepthPhaseAnalyzer.computeDepthPhaseTimeDifference, httt, hD]
  · intro ttt httt hR
    cases hD : ttt.compute1 dp lat lon depth stationLat stationLon stationElev with
    | none => simp [DepthPhaseAnalyzer.computeDepthPhaseTimeDifference, httt, hD]
    | some tD => simp [DepthPhaseAnalyzer.computeDepthPhaseTimeDifference, httt, hD, hR]

/-- Witness for claim C7 at a concrete oracle: pP arrives at 10 s, P at
7 s, both positive, so the pP-P difference is 3 s. -/
theorem computeDepthPhaseTimeDifference_spec_witness :
    analyzerOracle.computeDepthPhaseTimeDifference "pP" 0 0 100 1 2 3 = 3 := by
  have h := (computeDepthPhaseTimeDifference_spec analyzerOracle
    "pP" 0 0 100 1 2 3).1 oracleFix rfl 10 (by decide) 7 (by decide)
  rw [h]; decide

/-- `calculateMisfit` never reads its location and trial-depth
parameters: the misfit is the same at every trial depth. -/
lemma calculateMisfit_const (lat lon depth lat2 lon2 depth2 : ℚ)
    (obs : List DepthPhaseObservation) :
    calculateMisfit lat lon depth obs = calculateMisfit lat2 lon2 depth2 obs := rfl

/-- `gridStep` rewritten through the depth-independence of the misfit. -/
lemma gridStep_eq (lat lon : ℚ) (obs : List DepthPhaseObservation)
    (acc : ℚ × MisfitVal) (depth : ℚ) :
    gridStep lat lon obs acc depth =
      if ltM (calculateMisfit 0 0 0 obs) acc.2 then
        (depth, calculateMisfit 0 0 0 obs)
      else acc := rfl

/-- When the (depth-independent) misfit does not improve on the
accumulator, the whole fold leaves the accumulator unchanged. -/
lemma foldl_gridStep_stall (lat lon : ℚ) (obs : List DepthPhaseObservation)
    (pts : List ℚ) (acc : ℚ × MisfitVal)
    (h : ltM (calculateMisfit 0 0 0 obs) acc.2 = false) :
    pts.foldl (gridStep lat lon obs) acc = acc := by
  induction pts with
  | nil => rfl
  | cons p rest ih => rw [List.foldl_cons, gridStep_eq, if_neg (by simp [h]), ih]

/-- When the misfit is a finite constant, the ascending scan keeps its
first grid point: `gridSearchDepth` returns `minDepth` whenever the
grid is non-empty. -/
lemma gridSearchDepth_const_fin (lat lon : ℚ)
    (obs : List DepthPhaseObservation) (minD maxD step q : ℚ)
    (hm : calculateMisfit 0 0 0 obs = .fin q)
    (hs : 0 < step) (hle : minD ≤ maxD) :
    gridSearchDepth lat lon obs minD maxD step = minD := by
  unfold gridSearchDepth gridPoints
  rw [if_pos ⟨hs, hle⟩, List.range_succ_eq_map, List.map_cons, List.foldl_cons,
      gridStep_eq, hm]
  rw [if_pos (show ltM (MisfitVal.fin q) ((-1 : ℚ), MisfitVal.inf).2 = true from rfl)]
  rw [foldl_gridStep_stall _ _ _ _ _ (by rw [hm]; simp [ltM])]
  simp

/-- Every grid point lies in the scanned interval. -/
lemma gridPoints_bounds {minD maxD step x : ℚ}
    (hx : x ∈ gridPoints minD maxD step) : minD ≤ x ∧ x ≤ maxD := by
  unfold gridPoints at hx
  by_cases hc : 0 < step ∧ minD ≤ maxD
  · rw [if_pos hc] at hx
    obtain ⟨k, hk, rfl⟩ := List.mem_map.mp hx
    have hk2 : k ≤ (Int.floor ((maxD - minD) / step)).toNat :=
      Nat.lt_succ_iff.mp (List.mem_range.mp hk)
    have h0 : (0 : ℤ) ≤ Int.floor ((maxD - minD) / step) :=
      Int.floor_nonneg.mpr (div_nonneg (by linarith [hc.2]) (le_of_lt hc.1))
    have hk3 : (k : ℤ) ≤ Int.floor ((maxD - minD) / step) := by omega
    have hkq : (k : ℚ) ≤ (maxD - minD) / step := by
      have := Int.le_floor.mp hk3
      push_cast at this
      exact this
    constructor
    · have : 0 ≤ (k : ℚ) * step := mul_nonneg (Nat.cast_nonneg k) (le_of_lt hc.1)
      linarith
    · have h2 : (k : ℚ) * step ≤ maxD - minD := by
        calc (k : ℚ) * step ≤ ((maxD - minD) / step) * step :=
              mul_le_mul_of_nonneg_right hkq (le_of_lt hc.1)
          _ = maxD - minD := div_mul_cancel₀ _ (ne_of_gt hc.1)
      linarith
  · rw [if_neg hc] at hx
    exact absurd hx (List.not_mem_nil x)

/-- The first component of the fold is the initial best depth or one of
the grid points. -/
lemma foldl_gridStep_mem (lat lon : ℚ) (obs : List DepthPhaseObservation)
    (pts : List ℚ) (acc : ℚ × MisfitVal) :
    (pts.foldl (gridStep lat lon obs) acc).1 = acc.1 ∨
    (pts.foldl (gridStep lat lon obs) acc).1 ∈ pts := by
  induction pts generalizing acc with
  | nil => exact Or.inl rfl
  | cons p rest ih =>
    rw [List.foldl_cons]
    rcases ih (gridStep lat lon obs acc p) with h | h
    · rw [h]
      unfold gridStep
      split
      · exact Or.inr (List.mem_cons_self _ _)
      · exact Or.inl rfl
    · exact Or.inr (List.mem_cons_of_mem _ h)

/-- `gridSearchDepth` returns -1 or a depth inside the scanned interval. -/
lemma gridSearchDepth_cases (lat lon : ℚ) (obs : List DepthPhaseObservation)
    (minD maxD step : ℚ) :
    gridSearchDepth lat lon obs minD maxD step = -1 ∨
    (minD ≤ gridSearchDepth lat lon obs minD maxD step ∧
     gridSearchDepth lat lon obs minD maxD step ≤ maxD) := by
  unfold gridSearchDepth
  rcases foldl_gridStep_mem lat lon obs (gridPoints minD maxD step)
    ((-1 : ℚ), MisfitVal.inf) with h | h
  · exact Or.inl h
  · exact Or.inr (gridPoints_bounds h)

/-- A scan over an interval clamped into `[lo, hi]` returns -1 or a
depth inside `[lo, hi]`. -/
lemma gridSearchDepth_clamped (lat lon : ℚ)
    (obs : List DepthPhaseObservation) (lo hi a b step : ℚ) :
    gridSearchDepth lat lon obs (max lo a) (min hi b) step = -1 ∨
    (lo ≤ gridSearchDepth lat lon obs (max lo a) (min hi b) step ∧
     gridSearchDepth lat lon obs (max lo a) (min hi b) step ≤ hi) := by
  rcases gridSearchDepth_cases lat lon obs (max lo a) (min hi b) step with h | h
  · exact Or.inl h
  · exact Or.inr ⟨le_trans (le_max_left _ _) h.1, le_trans h.2 (min_le_left _ _)⟩

/-- Claim C3: for every configuration, location and observation list,
`invertForDepth` returns -1 or a value in [minDepth, maxDepth]. -/
theorem invertForDepth_range (A : DepthPhaseAnalyzer)
    (lat lon initialDepth : ℚ) (obs : List DepthPhaseObservation) :
    A.invertForDepth lat lon obs initialDepth = -1 ∨
    (A._config.minDepth ≤ A.invertForDepth lat lon obs initialDepth ∧
     A.invertForDepth lat lon obs initialDepth ≤ A._config.maxDepth) := by
  simp only [DepthPhaseAnalyzer.invertForDepth]
  split
  · exact Or.inl rfl
  split
  · exact Or.inl rfl
  split
  · exact Or.inl rfl
  split
  · exact Or.inl rfl
  split
  · exact Or.inl rfl
  exact gridSearchDepth_clamped lat lon obs _ _ _ _ _

/-- The misfit of a list whose valid observations all carry positive
weight and which has at least one valid observation is a finite
non-negative value. -/
lemma calculateMisfit_fin_of_pos (obs : List DepthPhaseObservation)
    (hone : obs.filter (fun o => o.isValid) ≠ [])
    (hw : ∀ o ∈ obs, o.isValid = true → 0 < o.weight) :
    ∃ q, 0 ≤ q ∧ calculateMisfit 0 0 0 obs = .fin q := by
  have hwv : ∀ o ∈ obs.filter (fun o => o.isValid), 0 < o.weight := by
    intro o ho
    have hmem := List.mem_filter.mp ho
    exact hw o hmem.1 (by simpa using hmem.2)
  have hsumW : 0 < ((obs.filter (fun o => o.isValid)).map (fun o => o.weight)).sum := by
    apply List.sum_pos
    · intro w hwmem
      obtain ⟨o, ho, rfl⟩ := List.mem_map.mp hwmem
      exact hwv o ho
    · simpa using hone
  have hsumSq : 0 ≤ ((obs.filter (fun o => o.isValid)).map (fun o =>
      o.weight * ((o.timeDifferenceObs - o.timeDifferenceTheo) *
                  (o.timeDifferenceObs - o.timeDifferenceTheo)))).sum := by
    apply List.sum_nonneg
    intro x hx
    obtain ⟨o, ho, rfl⟩ := List.mem_map.mp hx
    exact mul_nonneg (le_of_lt (hwv o ho)) (mul_self_nonneg _)
  refine ⟨_, div_nonneg hsumSq (le_of_lt hsumW), ?_⟩
  simp only [calculateMisfit]
  rw [if_neg, if_neg]
  · exact not_lt.mpr (div_nonneg hsumSq (le_of_lt hsumW))
  · rintro (h | h)
    · exact hone (List.length_eq_zero.mp h)
    · exact absurd h (ne_of_gt hsumW)

/-- Claim C1 (amended): when a travel-time oracle is set,
`minDepth ≤ maxDepth`, `0 ≤ minDepth`, and the observation list has at
least `minPhaseCount` valid observations, at least one, every valid one
of positive weight, then `invertForDepth` returns exactly `minDepth`:
`calculateMisfit` ignores its trial-depth and location arguments, so
the misfit is constant and the first grid point of every ascending
pass wins. -/
theorem invertForDepth_degenerate_minDepth (A : DepthPhaseAnalyzer)
    (lat lon initialDepth : ℚ) (obs : List DepthPhaseObservation)
    (httt : A._ttt.isSome = true)
    (hle : A._config.minDepth ≤ A._config.maxDepth)
    (hmin0 : 0 ≤ A._config.minDepth)
    (hcount : A._config.minPhaseCount ≤ ((obs.filter (fun o => o.isValid)).length : ℤ))
    (hone : obs.filter (fun o => o.isValid) ≠ [])
    (hw : ∀ o ∈ obs, o.isValid = true → 0 < o.weight) :
    A.invertForDepth lat lon obs initialDepth = A._config.minDepth ∧
    ∀ lat2 lon2 depth depth2 : ℚ,
      calculateMisfit lat lon depth obs = calculateMisfit lat2 lon2 depth2 obs := by
  refine ⟨?_, fun _ _ _ _ => rfl⟩
  obtain ⟨q, hq0, hq⟩ := calculateMisfit_fin_of_pos obs hone hw
  obtain ⟨ttt, httt2⟩ := Option.isSome_iff_exists.mp httt
  have hobs : obs.isEmpty = false := by
    cases obs with
    | nil => simp at hone
    | cons a l => rfl
  have h1 : gridSearchDepth lat lon obs A._config.minDepth A._config.maxDepth 10 =
      A._config.minDepth :=
    gridSearchDepth_const_fin lat lon obs _ _ _ q hq (by norm_num) hle
  have hmax1 : max A._config.minDepth (A._config.minDepth - 20) = A._config.minDepth :=
    max_eq_left (by linarith)
  have hmin1 : A._config.minDepth ≤ min A._config.maxDepth (A._config.minDepth + 20) :=
    le_min hle (by linarith)
  have h2 : gridSearchDepth lat lon obs A._config.minDepth
      (min A._config.maxDepth (A._config.minDepth + 20)) 1 = A._config.minDepth :=
    gridSearchDepth_const_fin lat lon obs _ _ _ q hq (by norm_num) hmin1
  have hmax2 : max A._config.minDepth (A._config.minDepth - 5) = A._config.minDepth :=
    max_eq_left (by linarith)
  have hmin2 : A._config.minDepth ≤ min A._config.maxDepth (A._config.minDepth + 5) :=
    le_min hle (by linarith)
  have h3 : gridSearchDepth lat lon obs A._config.minDepth
      (min A._config.maxDepth (A._config.minDepth + 5)) ((1 : ℚ) / 2) =
      A._config.minDepth :=
    gridSearchDepth_const_fin lat lon obs _ _ _ q hq (by norm_num) hmin2
  simp only [DepthPhaseAnalyzer.invertForDepth, hobs, httt2, Bool.false_eq_true,
    if_false, h1, hmax1, h2, hmax2, h3, not_lt.mpr hcount, not_lt.mpr hmin0,
    ite_false]

/-- Witness for the amended claim C1: on a concrete analyzer with grid
range [0, 10] and three valid unit-weight observations the inversion
returns the configured minimum depth, 0. -/
theorem invertForDepth_degenerate_minDepth_witness :
    analyzerSmall.invertForDepth 1 2 obsSmall 33 = 0 :=
  (invertForDepth_degenerate_minDepth analyzerSmall 1 2 33 obsSmall rfl
    (by decide) (by decide) (by decide) (by decide) (by decide)).1.trans (by decide)

/-- Counterexample to claim C1 as stated: with `minDepth = -5`, an
oracle set, `minDepth ≤ maxDepth` and one valid positive-weight
observation (enough for `minPhaseCount = 1`), `invertForDepth` returns
-1 instead of the claimed `minDepth`: the coarse pass returns -5 and
the `bestDepth < 0` guard discards it. -/
theorem invertForDepth_minDepth_counterexample :
    analyzerNeg._ttt.isSome = true ∧
    analyzerNeg._config.minDepth ≤ analyzerNeg._config.maxDepth ∧
    analyzerNeg._config.minPhaseCount ≤
      ((obsNeg.filter (fun o => o.isValid)).length : ℤ) ∧
    obsNeg.all (fun o => !o.isValid || decide (0 < o.weight)) = true ∧
    analyzerNeg.invertForDepth 0 0 obsNeg 33 = -1 ∧
    analyzerNeg._config.minDepth = -5 := by decide

/-- Claim C2 (scenario S4) evaluated on the code: with observed
differences 80, 82, 78 s (theoretical difference 66 s stored at the
initial depth of 33 km), minDepth 0, maxDepth 100, the inversion
returns 0, not a depth in [39.5, 40.5]: the misfit never consults the
trial depth, so the first grid point wins. -/
theorem invertForDepth_scenarioS4_failing :
    analyzerS4._config.minDepth = 0 ∧ analyzerS4._config.maxDepth = 100 ∧
    analyzerS4.invertForDepth 0 0 obsS4 33 = 0 ∧
    ¬((39.5 : ℚ) ≤ analyzerS4.invertForDepth 0 0 obsS4 33 ∧
      analyzerS4.invertForDepth 0 0 obsS4 33 ≤ 40.5) := by decide

/-- Lists related pointwise by `ignoredObsEquiv` produce the same valid
count, the same weight sum and the same weighted squared-residual sum:
an invalid observation is filtered out and a zero-weight one contributes
zero to both sums. -/
lemma forall2_ignored_filter_eq (l1 l2 : List DepthPhaseObservation)
    (h : List.Forall₂ ignoredObsEquiv l1 l2) :
    (l1.filter (fun o => o.isValid)).length =
      (l2.filter (fun o => o.isValid)).length ∧
    ((l1.filter (fun o => o.isValid)).map (fun o => o.weight)).sum =
      ((l2.filter (fun o => o.isValid)).map (fun o => o.weight)).sum ∧
    ((l1.filter (fun o => o.isValid)).map (fun o =>
        o.weight * ((o.timeDifferenceObs - o.timeDifferenceTheo) *
                    (o.timeDifferenceObs - o.timeDifferenceTheo)))).sum =
      ((l2.filter (fun o => o.isValid)).map (fun o =>
        o.weight * ((o.timeDifferenceObs - o.timeDifferenceTheo) *
                    (o.timeDifferenceObs - o.timeDifferenceTheo)))).sum := by
  induction h with
  | nil => exact ⟨rfl, rfl, rfl⟩
  | cons hab hrest ih =>
    obtain ⟨hlen, hsw, hsq⟩ := ih
    rename_i a b l1t l2t
    rcases hab with rfl | ⟨hv, hw0, hzero⟩
    · cases hval : a.isValid <;>
        simp [List.filter_cons, hval, hlen, hsw, hsq]
    · rcases hzero with hw | hinv
      · cases hval : a.isValid with
        | false =>
          have hvalb : b.isValid = false := by rw [← hv, hval]
          simp [List.filter_cons, hval, hvalb, hlen, hsw, hsq]
        | true =>
          have hvalb : b.isValid = true := by rw [← hv, hval]
          have hwb : b.weight = 0 := by rw [← hw0, hw]
          simp [List.filter_cons, hval, hvalb, hlen, hsw, hsq, hw, hwb]
      · have hvalb : b.isValid = false := by rw [← hv, hinv]
        simp [List.filter_cons, hinv, hvalb, hlen, hsw, hsq]

/-- The misfit only sees the valid count and the two sums, so it is
equal on lists related by `ignoredObsEquiv`. -/
lemma calculateMisfit_ignored_eq (l1 l2 : List DepthPhaseObservation)
    (h : List.Forall₂ ignoredObsEquiv l1 l2) (lat lon depth : ℚ) :
    calculateMisfit lat lon depth l1 = calculateMisfit lat lon depth l2 := by
  obtain ⟨hlen, hsw, hsq⟩ := forall2_ignored_filter_eq l1 l2 h
  simp only [calculateMisfit, hlen, hsw, hsq]

/-- The grid search is equal on lists related by `ignoredObsEquiv`. -/
lemma gridSearchDepth_ignored_eq (l1 l2 : List DepthPhaseObservation)
    (h : List.Forall₂ ignoredObsEquiv l1 l2)
    (lat lon minD maxD step : ℚ) :
    gridSearchDepth lat lon l1 minD maxD step =
      gridSearchDepth lat lon l2 minD maxD step := by
  have hstep : gridStep lat lon l1 = gridStep lat lon l2 := by
    funext acc depth
    simp only [gridStep, calculateMisfit_ignored_eq l1 l2 h]
  simp only [gridSearchDepth, hstep]

/-- Claim C4 (amended): `invertForDepth` returns the same result on two
observation lists that differ only in the field values (other than
`isValid` and `weight` themselves) of observations whose weight is zero
or whose validity flag is false.  (With merely non-positive weight the
property fails, see the counterexample: a negative weight enters the
misfit sums.) -/
theorem invertForDepth_ignores_zero_weight (A : DepthPhaseAnalyzer)
    (lat lon initialDepth : ℚ) (l1 l2 : List DepthPhaseObservation)
    (h : List.Forall₂ ignoredObsEquiv l1 l2) :
    A.invertForDepth lat lon l1 initialDepth =
      A.invertForDepth lat lon l2 initialDepth := by
  have hemp : l1.isEmpty = l2.isEmpty := by
    cases h with
    | nil => rfl
    | cons _ _ => rfl
  have hvc : (l1.filter (fun o => o.isValid)).length =
      (l2.filter (fun o => o.isValid)).length :=
    (forall2_ignored_filter_eq l1 l2 h).1
  have hgs : ∀ minD maxD step : ℚ,
      gridSearchDepth lat lon l1 minD maxD step =
        gridSearchDepth lat lon l2 minD maxD step :=
    fun minD maxD step => gridSearchDepth_ignored_eq l1 l2 h lat lon minD maxD step
  simp only [DepthPhaseAnalyzer.invertForDepth, hemp, hvc, hgs]

/-- Witness for the amended claim C4: two concrete lists differing in
every field but `weight` and `isValid` of a zero-weight valid
observation give the same inversion result. -/
theorem invertForDepth_ignores_zero_weight_witness :
    analyzerTwo.invertForDepth 0 0 obsZeroWeightA 33 =
      analyzerTwo.invertForDepth 0 0 obsZeroWeightB 33 :=
  invertForDepth_ignores_zero_weight analyzerTwo 0 0 33
    obsZeroWeightA obsZeroWeightB
    (List.Forall₂.cons (Or.inl rfl)
      (List.Forall₂.cons (Or.inr ⟨rfl, rfl, Or.inl rfl⟩) List.Forall₂.nil))

/-- Counterexample to claim C4 as stated: two lists differing only in
the observed time difference of a valid observation of weight -1 (a
non-positive weight) yield different inversion results (0 versus -1):
the negative weight makes the misfit radicand negative on the second
list, the square root is NaN, and the scan keeps no depth. -/
theorem invertForDepth_nonpositive_counterexample :
    List.Forall₂ nonPositiveObsEquiv obsNegWeightA obsNegWeightB ∧
    analyzerTwo.invertForDepth 0 0 obsNegWeightA 33 = 0 ∧
    analyzerTwo.invertForDepth 0 0 obsNegWeightB 33 = -1 ∧
    analyzerTwo.invertForDepth 0 0 obsNegWeightA 33 ≠
      analyzerTwo.invertForDepth 0 0 obsNegWeightB 33 := by
  refine ⟨List.Forall₂.cons (Or.inl rfl)
    (List.Forall₂.cons (Or.inr ⟨rfl, rfl, Or.inl (by decide)⟩) List.Forall₂.nil),
    by decide, by decide, by decide⟩

/-- The region loop returns on the first region containing the point,
ignoring everything after it. -/
lemma getConstraintsLoop_first_match (fromString : String → Option ℚ)
    (lat lon : ℚ) (pre post : List GeoFeature) (r : GeoFeature)
    (result : RegionDepthConstraints)
    (hpre : ∀ p ∈ pre, p.contains lat lon = false)
    (hr : r.contains lat lon = true) :
    getConstraintsLoop fromString lat lon (pre ++ r :: post) result =
      applyRegion fromString r result := by
  induction pre with
  | nil => simp [getConstraintsLoop, hr]
  | cons p rest ih =>
    have hp : p.contains lat lon = false := hpre p (List.mem_cons_self p rest)
    rw [List.cons_append]
    simp only [getConstraintsLoop, hp, Bool.false_eq_true, if_false]
    exact ih (fun x hx => hpre x (List.mem_cons_of_mem p hx))

/-- Claim C5: for an initialized, enabled lookup, `getConstraints`
returns the constraints built from the first retained region whose
polygon contains the point, starting from the global defaults,
independently of every later region. -/
theorem getConstraints_first_match (L : RegionDepthLookup)
    (fromString : String → Option ℚ) (lat lon : ℚ)
    (pre post : List GeoFeature) (r : GeoFeature)
    (hinit : L._initialized = true)
    (hen : L._config.enabled = true)
    (hsplit : L._regions = pre ++ r :: post)
    (hpre : ∀ p ∈ pre, p.contains lat lon = false)
    (hr : r.contains lat lon = true) :
    L.getConstraints fromString lat lon =
      applyRegion fromString r
        { regionName := "", defaultDepth := L._config.globalDefaultDepth,
          maxDepth := L._config.globalMaxDepth, hasDefaultDepth := false,
          hasMaxDepth := false, matched := false } := by
  have hne : L._regions.isEmpty = false := by
    rw [hsplit]; cases pre <;> rfl
  simp only [RegionDepthLookup.getConstraints]
  rw [if_neg (by rintro (h | h); exact absurd hen (by simp [h]); simp [hne] at h)]
  rw [hsplit]
  exact getConstraintsLoop_first_match fromString lat lon pre post r _ hpre hr

/-- Witness for claim C5: with overlapping regions "A" (maxDepth 35)
before "B" (maxDepth 700) and a point inside both, the result carries
region "A" and maxDepth 35, the global default depth 15 untouched. -/
theorem getConstraints_first_match_witness :
    lookupAB.getConstraints fromStringFix 37 (-97) =
      { regionName := "A", defaultDepth := 15, maxDepth := 35,
        hasDefaultDepth := false, hasMaxDepth := true, matched := true } :=
  (getConstraints_first_match lookupAB fromStringFix 37 (-97) [] [regionB] regionA
    rfl rfl rfl (fun p hp => absurd hp (List.not_mem_nil p)) (by decide)).trans
    (by decide)

/-- Claim C6: `init` returns true iff the lookup is enabled and at
least one configured region name resolves against the feature store;
`isInitialized` equals that value afterwards; and a disabled or
region-less configuration leaves the lookup uninitialized with no
retained regions. -/
theorem init_resolves (L : RegionDepthLookup) (features : List GeoFeature) :
    ((L.init features).2 = true ↔
      (L._config.enabled = true ∧
        ∃ n ∈ L._config.regions, ∃ f ∈ features, f.name = n)) ∧
    (L.init features).1._initialized = (L.init features).2 ∧
    ((L._config.enabled = false ∨ L._config.regions = []) →
      (L.init features).2 = false ∧ (L.init features).1._regions = [] ∧
      (L.init features).1._initialized = false) := by
  by_cases hen : L._config.enabled = false
  · refine ⟨by simp [RegionDepthLookup.init, hen], ?_, fun _ => ?_⟩
    · simp [RegionDepthLookup.init, hen]
    · exact ⟨by simp [RegionDepthLookup.init, hen],
        by simp [RegionDepthLookup.init, hen],
        by simp [RegionDepthLookup.init, hen]⟩
  · by_cases hreg : L._config.regions.isEmpty
    · have hnil : L._config.regions = [] := List.isEmpty_iff.mp hreg
      refine ⟨by simp [RegionDepthLookup.init, hen, hreg, hnil], ?_, fun _ => ?_⟩
      · simp [RegionDepthLookup.init, hen, hreg]
      · exact ⟨by simp [RegionDepthLookup.init, hen, hreg],
          by simp [RegionDepthLookup.init, hen, hreg],
          by simp [RegionDepthLookup.init, hen, hreg]⟩
    · have hen2 : L._config.enabled = true := by
        cases h : L._config.enabled
        · exact absurd h hen
        · rfl
      have hnil : L._config.regions ≠ [] := by
        intro h; rw [h] at hreg; exact hreg rfl
      refine ⟨?_, ?_, fun hbad => ?_⟩
      · simp only [RegionDepthLookup.init, if_neg hen, if_neg hreg,
          Bool.not_eq_true', Bool.not_eq_false]
        have key : (List.filterMap (fun regionName =>
            List.find? (fun feature => decide (feature.name = regionName)) features)
            L._config.regions).isEmpty = false ↔
            ∃ n ∈ L._config.regions, ∃ f ∈ features, f.name = n := by
          rw [Bool.eq_false_iff, Ne, List.isEmpty_iff, List.filterMap_eq_nil_iff]
          push_neg
          constructor
          · rintro ⟨n, hn, hfind⟩
            obtain ⟨f, hf, hp⟩ :=
              List.find?_isSome.mp (Option.ne_none_iff_isSome.mp hfind)
            exact ⟨n, hn, f, hf, by simpa using hp⟩
          · rintro ⟨n, hn, f, hf, hname⟩
            exact ⟨n, hn, Option.ne_none_iff_isSome.mpr
              (List.find?_isSome.mpr ⟨f, hf, by simpa using hname⟩)⟩
        rw [key]
        simp [hen2]
      · simp [RegionDepthLookup.init, hen, hreg]
      · rcases hbad with h | h
        · exact absurd h hen
        · exact absurd h hnil

/-- Witness for claim C6: an enabled lookup configured with region name
"A" initializes successfully against a store holding regions "A" and
"B". -/
theorem init_resolves_witness :
    (lookupPreInit.init [regionA, regionB]).2 = true :=
  (init_resolves lookupPreInit [regionA, regionB]).1.mpr
    ⟨rfl, "A", by decide, regionA, List.mem_cons_self regionA [regionB], rfl⟩
